import Mathlib

/-!
Verification of the ElectroMart e-commerce backend (`backend/server.py`):
order settlement and loyalty accounting, tier classification, registration,
and the recommendation selector, shallowly embedded in Lean.

Conventions of the embedding:
* Python `float` money amounts are modelled as exact rationals (`ℚ`);
  Python `int` as `ℤ` (arbitrary precision in both languages).
* The MongoDB collections are modelled as Lean lists; `find_one` on a
  filter is `List.find?`; `update_one` updates the first matching record.
* Fresh UUIDs and timestamps are irrelevant to every property below and are
  not modelled (`Order.id`, `created_at`).
* A FastAPI handler that `raise`s an `HTTPException` before any `await ...
  update/insert` call performs no state change; such a handler is embedded
  as a function into `Except`, returning the new state only on success.
-/

/-- Loyalty tiers (`class LoyaltyTier`). -/
inductive LoyaltyTier where
  | bronze
  | silver
  | gold
  | platinum
deriving DecidableEq, Repr

/-- Rank of a tier in the bronze < silver < gold < platinum order, used to
state that tier classification is monotone in spend. -/
def tierRank : LoyaltyTier → Nat
  | .bronze => 0
  | .silver => 1
  | .gold => 2
  | .platinum => 3

/-- `class Product` (the fields the specified behaviour reads). -/
structure Product where
  id : String
  name : String
  price : ℚ
  category : String
  stock_quantity : ℤ
  rating : ℚ
  is_active : Bool
deriving DecidableEq, Repr

/-- `class User` (the fields the specified behaviour reads). -/
structure User where
  id : String
  email : String
  name : String
  loyalty_points : ℤ
  loyalty_tier : LoyaltyTier
  total_spent : ℚ
deriving DecidableEq, Repr

/-- `class CartItem`. -/
structure CartItem where
  product_id : String
  quantity : ℤ
deriving DecidableEq, Repr

/-- A line item snapshot appended to `order_items` in `create_order`. -/
structure OrderItem where
  product_id : String
  name : String
  price : ℚ
  quantity : ℤ
  total : ℚ
deriving DecidableEq, Repr

/-- `class Order` (persisted by `create_order`; `id`/`created_at` omitted). -/
structure Order where
  user_id : String
  items : List OrderItem
  total_amount : ℚ
  discount_amount : ℚ
  loyalty_points_used : ℤ
  loyalty_points_earned : ℤ
  payment_method : String
  payment_status : String
  order_status : String
  shipping_address : String
deriving DecidableEq, Repr

/-- `class OrderCreate`: the request body of `POST /api/orders`. -/
structure OrderCreate where
  items : List CartItem
  shipping_address : String
  loyalty_points_to_use : ℤ
deriving DecidableEq, Repr

/-- `def calculate_loyalty_tier(total_spent: float) -> LoyaltyTier`. -/
def calculate_loyalty_tier (total_spent : ℚ) : LoyaltyTier :=
  if 50000 ≤ total_spent then LoyaltyTier.platinum
  else if 25000 ≤ total_spent then LoyaltyTier.gold
  else if 10000 ≤ total_spent then LoyaltyTier.silver
  else LoyaltyTier.bronze

/-- `def calculate_loyalty_points(amount: float) -> int`, i.e.
`int(amount // 100)`: Python float floor-division `amount // 100` is
`⌊amount / 100⌋`, already integral, so the `int(...)` conversion is exact. -/
def calculate_loyalty_points (amount : ℚ) : ℤ :=
  ⌊amount / 100⌋

/-- Errors raised by `create_order` before any database write:
`HTTPException(404, f"Product {item.product_id} not found")` and
`HTTPException(400, f"Insufficient stock for {product['name']}")`. -/
inductive OrderError where
  | productNotFound (product_id : String)
  | insufficientStock (product_name : String)
deriving DecidableEq, Repr

/-- `db.products.find_one({"id": product_id, "is_active": True})`. -/
def findActiveProduct (products : List Product) (product_id : String) : Option Product :=
  products.find? (fun p => p.id == product_id && p.is_active)

/-- The validation/pricing loop of `create_order` (`for item in
order_data.items`): builds `order_items` and accumulates `total_amount`,
raising on a missing/inactive product or on `stock_quantity < quantity`.
No database write happens in this phase. -/
def buildOrderItems (products : List Product) :
    List CartItem → Except OrderError (List OrderItem × ℚ)
  | [] => Except.ok ([], 0)
  | item :: rest =>
    match findActiveProduct products item.product_id with
    | none => Except.error (OrderError.productNotFound item.product_id)
    | some product =>
      if product.stock_quantity < item.quantity then
        Except.error (OrderError.insufficientStock product.name)
      else
        match buildOrderItems products rest with
        | Except.error e => Except.error e
        | Except.ok (items, total) =>
          Except.ok
            (⟨item.product_id, product.name, product.price, item.quantity,
              product.price * (item.quantity : ℚ)⟩ :: items,
             product.price * (item.quantity : ℚ) + total)

/-- `db.products.update_one({"id": pid}, {"$inc": {"stock_quantity": -qty}})`:
decrement the stock of the first record whose `id` matches. -/
def updateOneStock : List Product → String → ℤ → List Product
  | [], _, _ => []
  | p :: ps, product_id, qty =>
    if p.id == product_id then
      { p with stock_quantity := p.stock_quantity - qty } :: ps
    else
      p :: updateOneStock ps product_id qty

/-- The stock-update loop at the end of `create_order`
(`for item in order_data.items: ... "$inc": {"stock_quantity": -item.quantity}`). -/
def applyStockDecrements (products : List Product) (items : List CartItem) : List Product :=
  items.foldl (fun ps item => updateOneStock ps item.product_id item.quantity) products

/-- The JSON body returned by a successful `create_order`. -/
structure OrderResponse where
  order_total_amount : ℚ
  loyalty_points_earned : ℤ
  new_loyalty_points : ℤ
  new_tier : LoyaltyTier
deriving DecidableEq, Repr

/-- Everything a successful `create_order` persists or returns: the inserted
`Order`, the updated `User` record, the product list after the stock
decrements, and the response body. -/
structure CreateOrderResult where
  order : Order
  user : User
  products : List Product
  response : OrderResponse
deriving DecidableEq, Repr

/-- The success path of `create_order` (source lines 310–364), given the
`order_items` and accumulated `total_amount` produced by the validation
loop: apply the loyalty-point discount, compute points earned, build the
order record, the updated user record, the decremented product list and the
response body. -/
def settleComputation (products : List Product) (current_user : User)
    (order_data : OrderCreate) (order_items : List OrderItem)
    (subtotal : ℚ) : CreateOrderResult :=
    -- Apply loyalty points discount
    let loyalty_points_used : ℤ :=
      min order_data.loyalty_points_to_use current_user.loyalty_points
    let discount_amount : ℚ :=
      if 0 < loyalty_points_used then (loyalty_points_used : ℚ) else 0
    let total_amount : ℚ :=
      if 0 < loyalty_points_used then max 0 (subtotal - (loyalty_points_used : ℚ))
      else subtotal
    -- Calculate loyalty points earned
    let loyalty_points_earned : ℤ := calculate_loyalty_points total_amount
    let order : Order :=
      { user_id := current_user.id
        items := order_items
        total_amount := total_amount
        discount_amount := discount_amount
        loyalty_points_used := loyalty_points_used
        loyalty_points_earned := loyalty_points_earned
        payment_method := "UPI"
        payment_status := "pending"
        order_status := "placed"
        shipping_address := order_data.shipping_address }
    -- Update user loyalty points and tier
    let new_loyalty_points : ℤ :=
      current_user.loyalty_points - loyalty_points_used + loyalty_points_earned
    let new_total_spent : ℚ := current_user.total_spent + total_amount
    let new_tier : LoyaltyTier := calculate_loyalty_tier new_total_spent
    let new_user : User :=
      { current_user with
          loyalty_points := new_loyalty_points
          total_spent := new_total_spent
          loyalty_tier := new_tier }
    { order := order
      user := new_user
      products := applyStockDecrements products order_data.items
      response :=
        { order_total_amount := total_amount
          loyalty_points_earned := loyalty_points_earned
          new_loyalty_points := new_loyalty_points
          new_tier := new_tier } }

/-- `POST /api/orders` (`create_order`): validate and price the cart
(`buildOrderItems`), then run the settlement computation above. An
`HTTPException` (the `Except.error` case) is raised before any write, so an
error leaves every collection unchanged. -/
def create_order (products : List Product) (current_user : User)
    (order_data : OrderCreate) : Except OrderError CreateOrderResult :=
  match buildOrderItems products order_data.items with
  | Except.error e => Except.error e
  | Except.ok (order_items, subtotal) =>
    Except.ok (settleComputation products current_user order_data order_items subtotal)

/-- Sum of the `total` fields of an order's line items (`Σ lineTotal`). -/
def sumLineTotals (items : List OrderItem) : ℚ :=
  (items.map (fun i => i.total)).sum

/-- `class UserCreate`: the request body of `POST /api/auth/register`. -/
structure UserCreate where
  email : String
  name : String
  password : String
deriving DecidableEq, Repr

/-- `HTTPException(400, "User already exists")`. -/
inductive RegisterError where
  | userAlreadyExists
deriving DecidableEq, Repr

/-- What a successful `register_user` persists and returns: the inserted
user record and the `loyalty_points` / `loyalty_tier` fields of the
response's `user` object. -/
structure RegisterResult where
  user : User
  response_loyalty_points : ℤ
  response_loyalty_tier : LoyaltyTier
deriving DecidableEq, Repr

/-- `POST /api/auth/register` (`register_user`): reject an existing email,
otherwise insert `User(..., loyalty_points=100)` — every other loyalty field
keeps its model default (`loyalty_tier=BRONZE`, `total_spent=0.0`) — and
echo the new user's points and tier in the response. `fresh_id` stands for
the generated UUID; password hashing is external and not modelled. -/
def register_user (users : List User) (user_data : UserCreate)
    (fresh_id : String) : Except RegisterError RegisterResult :=
  match users.find? (fun u => u.email == user_data.email) with
  | some _ => Except.error RegisterError.userAlreadyExists
  | none =>
    let user : User :=
      { id := fresh_id
        email := user_data.email
        name := user_data.name
        loyalty_points := 100  -- Welcome bonus
        loyalty_tier := LoyaltyTier.bronze
        total_spent := 0 }
    Except.ok
      { user := user
        response_loyalty_points := user.loyalty_points
        response_loyalty_tier := user.loyalty_tier }

/-- `GET /api/recommendations` when `db.orders.find({"user_id": ...})` is
empty: `db.products.find({"is_active": True}).sort("rating", -1).limit(limit)`
— the active products, sorted by rating descending, truncated to `limit`. -/
def get_recommendations_empty_history (products : List Product)
    (limit : Nat := 6) : List Product :=
  ((products.filter (fun p => p.is_active)).mergeSort
    (fun a b => b.rating ≤ a.rating)).take limit

/-- Two settlement requests racing on the shared product collection, in the
two-phase shape `create_order` has: the validation loop only reads product
state, and the stock writes all happen afterwards. In the interleaving
modelled here both handlers complete their reads (validations) against the
initial collection before either performs its writes — exactly what the
`await` points in the handler allow — and each handler that validated
successfully then applies its stock decrements unconditionally. Returns both
validation outcomes and the final product collection. -/
def interleavedSettlements (products : List Product) (o1 o2 : OrderCreate) :
    Except OrderError (List OrderItem × ℚ) ×
    Except OrderError (List OrderItem × ℚ) × List Product :=
  let v1 := buildOrderItems products o1.items
  let v2 := buildOrderItems products o2.items
  let s1 := if v1.isOk then applyStockDecrements products o1.items else products
  let s2 := if v2.isOk then applyStockDecrements s1 o2.items else s1
  (v1, v2, s2)

/-! ### Helper lemmas shared by the claim theorems -/

theorem create_order_ok_inv {ps : List Product} {u : User} {od : OrderCreate}
    {res : CreateOrderResult} (h : create_order ps u od = Except.ok res) :
    ∃ order_items subtotal,
      buildOrderItems ps od.items = Except.ok (order_items, subtotal) ∧
      res = settleComputation ps u od order_items subtotal := by
  unfold create_order at h
  cases hb : buildOrderItems ps od.items with
  | error e => rw [hb] at h; simp at h
  | ok pr =>
    obtain ⟨order_items, subtotal⟩ := pr
    rw [hb] at h
    simp only [Except.ok.injEq] at h
    exact ⟨order_items, subtotal, rfl, h.symm⟩

theorem settleComputation_used (ps : List Product) (u : User) (od : OrderCreate)
    (order_items : List OrderItem) (subtotal : ℚ) :
    (settleComputation ps u od order_items subtotal).order.loyalty_points_used
      = min od.loyalty_points_to_use u.loyalty_points := rfl

theorem settleComputation_discount (ps : List Product) (u : User) (od : OrderCreate)
    (order_items : List OrderItem) (subtotal : ℚ) :
    (settleComputation ps u od order_items subtotal).order.discount_amount
      = (if 0 < min od.loyalty_points_to_use u.loyalty_points
         then ((min od.loyalty_points_to_use u.loyalty_points : ℤ) : ℚ) else 0) := rfl

theorem settleComputation_total (ps : List Product) (u : User) (od : OrderCreate)
    (order_items : List OrderItem) (subtotal : ℚ) :
    (settleComputation ps u od order_items subtotal).order.total_amount
      = (if 0 < min od.loyalty_points_to_use u.loyalty_points
         then max 0 (subtotal - ((min od.loyalty_points_to_use u.loyalty_points : ℤ) : ℚ))
         else subtotal) := rfl

theorem settleComputation_items (ps : List Product) (u : User) (od : OrderCreate)
    (order_items : List OrderItem) (subtotal : ℚ) :
    (settleComputation ps u od order_items subtotal).order.items = order_items := rfl

theorem settleComputation_earned (ps : List Product) (u : User) (od : OrderCreate)
    (order_items : List OrderItem) (subtotal : ℚ) :
    (settleComputation ps u od order_items subtotal).order.loyalty_points_earned
      = calculate_loyalty_points
          (settleComputation ps u od order_items subtotal).order.total_amount := rfl

theorem settleComputation_user (ps : List Product) (u : User) (od : OrderCreate)
    (order_items : List OrderItem) (subtotal : ℚ) :
    ((settleComputation ps u od order_items subtotal).user.total_spent
        = u.total_spent
          + (settleComputation ps u od order_items subtotal).order.total_amount) ∧
    ((settleComputation ps u od order_items subtotal).user.loyalty_points
        = u.loyalty_points
          - (settleComputation ps u od order_items subtotal).order.loyalty_points_used
          + (settleComputation ps u od order_items subtotal).order.loyalty_points_earned) ∧
    ((settleComputation ps u od order_items subtotal).user.loyalty_tier
        = calculate_loyalty_tier
            (settleComputation ps u od order_items subtotal).user.total_spent) :=
  ⟨rfl, rfl, rfl⟩

theorem settleComputation_response (ps : List Product) (u : User) (od : OrderCreate)
    (order_items : List OrderItem) (subtotal : ℚ) :
    ((settleComputation ps u od order_items subtotal).response.order_total_amount
        = (settleComputation ps u od order_items subtotal).order.total_amount) ∧
    ((settleComputation ps u od order_items subtotal).response.loyalty_points_earned
        = (settleComputation ps u od order_items subtotal).order.loyalty_points_earned) ∧
    ((settleComputation ps u od order_items subtotal).response.new_loyalty_points
        = (settleComputation ps u od order_items subtotal).user.loyalty_points) ∧
    ((settleComputation ps u od order_items subtotal).response.new_tier
        = (settleComputation ps u od order_items subtotal).user.loyalty_tier) :=
  ⟨rfl, rfl, rfl, rfl⟩

theorem buildOrderItems_cons_none {ps : List Product} {item : CartItem}
    {rest : List CartItem}
    (hf : findActiveProduct ps item.product_id = none) :
    buildOrderItems ps (item :: rest)
      = Except.error (OrderError.productNotFound item.product_id) := by
  rw [buildOrderItems, hf]

theorem buildOrderItems_cons_some {ps : List Product} {item : CartItem}
    {rest : List CartItem} {p : Product}
    (hf : findActiveProduct ps item.product_id = some p) :
    buildOrderItems ps (item :: rest)
      = if p.stock_quantity < item.quantity then
          Except.error (OrderError.insufficientStock p.name)
        else
          match buildOrderItems ps rest with
          | Except.error e => Except.error e
          | Except.ok (items, total) =>
            Except.ok
              (⟨item.product_id, p.name, p.price, item.quantity,
                p.price * (item.quantity : ℚ)⟩ :: items,
               p.price * (item.quantity : ℚ) + total) := by
  rw [buildOrderItems, hf]

theorem buildOrderItems_sum {ps : List Product} {items : List CartItem}
    {ois : List OrderItem} {t : ℚ}
    (h : buildOrderItems ps items = Except.ok (ois, t)) : sumLineTotals ois = t := by
  induction items generalizing ois t with
  | nil =>
    simp only [buildOrderItems, Except.ok.injEq, Prod.mk.injEq] at h
    obtain ⟨rfl, rfl⟩ := h
    simp [sumLineTotals]
  | cons item rest ih =>
    cases hf : findActiveProduct ps item.product_id with
    | none => rw [buildOrderItems_cons_none hf] at h; simp at h
    | some p =>
      rw [buildOrderItems_cons_some hf] at h
      by_cases hs : p.stock_quantity < item.quantity
      · rw [if_pos hs] at h; simp at h
      · rw [if_neg hs] at h
        cases hr : buildOrderItems ps rest with
        | error e => rw [hr] at h; simp at h
        | ok pr =>
          obtain ⟨ois', t'⟩ := pr
          rw [hr] at h
          simp only [Except.ok.injEq, Prod.mk.injEq] at h
          obtain ⟨rfl, rfl⟩ := h
          simp [sumLineTotals]
          have := ih hr
          simp [sumLineTotals] at this
          rw [this]

theorem tier_eq_platinum_iff (a : ℚ) :
    calculate_loyalty_tier a = LoyaltyTier.platinum ↔ 50000 ≤ a := by
  unfold calculate_loyalty_tier; split_ifs <;> simp_all

theorem tier_eq_gold_iff (a : ℚ) :
    calculate_loyalty_tier a = LoyaltyTier.gold ↔ 25000 ≤ a ∧ a < 50000 := by
  unfold calculate_loyalty_tier
  split_ifs with h1 h2 h3 <;> simp_all <;> intros <;> linarith

theorem tier_eq_silver_iff (a : ℚ) :
    calculate_loyalty_tier a = LoyaltyTier.silver ↔ 10000 ≤ a ∧ a < 25000 := by
  unfold calculate_loyalty_tier
  split_ifs with h1 h2 h3 <;> simp_all <;> intros <;> linarith

theorem tier_eq_bronze_iff (a : ℚ) :
    calculate_loyalty_tier a = LoyaltyTier.bronze ↔ a < 10000 := by
  unfold calculate_loyalty_tier
  split_ifs with h1 h2 h3 <;> simp_all <;> intros <;> linarith

theorem tierRank_monotone {a b : ℚ} (hab : a ≤ b) :
    tierRank (calculate_loyalty_tier a) ≤ tierRank (calculate_loyalty_tier b) := by
  unfold calculate_loyalty_tier
  split_ifs <;> simp [tierRank] <;> linarith

/-- C5: the Tier Classifier returns platinum iff spend ≥ 50000, else gold iff
spend ≥ 25000, else silver iff spend ≥ 10000, else bronze; the thresholds are
inclusive lower bounds (9999→bronze, 10000→silver, 24999→silver, 25000→gold,
49999→gold, 50000→platinum) and the mapping is a monotone step function of
spend. -/
theorem C5_tier_classifier (s t : ℚ) (hst : s ≤ t) :
    (calculate_loyalty_tier s = LoyaltyTier.platinum ↔ 50000 ≤ s) ∧
    (calculate_loyalty_tier s = LoyaltyTier.gold ↔ 25000 ≤ s ∧ s < 50000) ∧
    (calculate_loyalty_tier s = LoyaltyTier.silver ↔ 10000 ≤ s ∧ s < 25000) ∧
    (calculate_loyalty_tier s = LoyaltyTier.bronze ↔ s < 10000) ∧
    calculate_loyalty_tier 9999 = LoyaltyTier.bronze ∧
    calculate_loyalty_tier 10000 = LoyaltyTier.silver ∧
    calculate_loyalty_tier 24999 = LoyaltyTier.silver ∧
    calculate_loyalty_tier 25000 = LoyaltyTier.gold ∧
    calculate_loyalty_tier 49999 = LoyaltyTier.gold ∧
    calculate_loyalty_tier 50000 = LoyaltyTier.platinum ∧
    tierRank (calculate_loyalty_tier s) ≤ tierRank (calculate_loyalty_tier t) :=
  ⟨tier_eq_platinum_iff s, tier_eq_gold_iff s, tier_eq_silver_iff s,
   tier_eq_bronze_iff s,
   by norm_num [calculate_loyalty_tier], by norm_num [calculate_loyalty_tier],
   by norm_num [calculate_loyalty_tier], by norm_num [calculate_loyalty_tier],
   by norm_num [calculate_loyalty_tier], by norm_num [calculate_loyalty_tier],
   tierRank_monotone hst⟩

/-- Witness for C5 at the concrete pair `s = 9999 ≤ t = 50000`. -/
theorem C5_tier_classifier_witness :
    (9999 : ℚ) ≤ 50000 ∧
    ((calculate_loyalty_tier 9999 = LoyaltyTier.platinum ↔ (50000 : ℚ) ≤ 9999) ∧
     (calculate_loyalty_tier 9999 = LoyaltyTier.gold ↔ (25000 : ℚ) ≤ 9999 ∧ (9999 : ℚ) < 50000) ∧
     (calculate_loyalty_tier 9999 = LoyaltyTier.silver ↔ (10000 : ℚ) ≤ 9999 ∧ (9999 : ℚ) < 25000) ∧
     (calculate_loyalty_tier 9999 = LoyaltyTier.bronze ↔ (9999 : ℚ) < 10000) ∧
     calculate_loyalty_tier 9999 = LoyaltyTier.bronze ∧
     calculate_loyalty_tier 10000 = LoyaltyTier.silver ∧
     calculate_loyalty_tier 24999 = LoyaltyTier.silver ∧
     calculate_loyalty_tier 25000 = LoyaltyTier.gold ∧
     calculate_loyalty_tier 49999 = LoyaltyTier.gold ∧
     calculate_loyalty_tier 50000 = LoyaltyTier.platinum ∧
     tierRank (calculate_loyalty_tier 9999) ≤ tierRank (calculate_loyalty_tier 50000)) :=
  ⟨by norm_num, C5_tier_classifier 9999 50000 (by norm_num)⟩

/-! ### C1 / C2: discount arithmetic and points redeemed -/

/-- Catalog with one active product used for the C1 theorems. -/
def ps1 : List Product :=
  [{ id := "p1", name := "Widget", price := 100, category := "cat",
     stock_quantity := 5, rating := 0, is_active := true }]

def u1 : User :=
  { id := "u1", email := "a@b.c", name := "Alice", loyalty_points := 50,
    loyalty_tier := LoyaltyTier.bronze, total_spent := 0 }

def od1 : OrderCreate :=
  { items := [{ product_id := "p1", quantity := 2 }],
    shipping_address := "addr", loyalty_points_to_use := 30 }

def res1 : CreateOrderResult :=
  { order :=
      { user_id := "u1"
        items := [{ product_id := "p1", name := "Widget", price := 100,
                    quantity := 2, total := 200 }]
        total_amount := 170
        discount_amount := 30
        loyalty_points_used := 30
        loyalty_points_earned := 1
        payment_method := "UPI"
        payment_status := "pending"
        order_status := "placed"
        shipping_address := "addr" }
    user := { id := "u1", email := "a@b.c", name := "Alice",
              loyalty_points := 21, loyalty_tier := LoyaltyTier.bronze,
              total_spent := 170 }
    products := [{ id := "p1", name := "Widget", price := 100, category := "cat",
                   stock_quantity := 3, rating := 0, is_active := true }]
    response := { order_total_amount := 170, loyalty_points_earned := 1,
                  new_loyalty_points := 21, new_tier := LoyaltyTier.bronze } }

/-- A negative points request: the code stores `loyalty_points_used = -3` in
the order while `discount_amount` stays `0`. -/
def od1neg : OrderCreate :=
  { items := [{ product_id := "p1", quantity := 1 }],
    shipping_address := "addr", loyalty_points_to_use := -3 }

def u1ten : User :=
  { id := "u1", email := "a@b.c", name := "Alice", loyalty_points := 10,
    loyalty_tier := LoyaltyTier.bronze, total_spent := 0 }

def res1neg : CreateOrderResult :=
  { order :=
      { user_id := "u1"
        items := [{ product_id := "p1", name := "Widget", price := 100,
                    quantity := 1, total := 100 }]
        total_amount := 100
        discount_amount := 0
        loyalty_points_used := -3
        loyalty_points_earned := 1
        payment_method := "UPI"
        payment_status := "pending"
        order_status := "placed"
        shipping_address := "addr" }
    user := { id := "u1", email := "a@b.c", name := "Alice",
              loyalty_points := 14, loyalty_tier := LoyaltyTier.bronze,
              total_spent := 100 }
    products := [{ id := "p1", name := "Widget", price := 100, category := "cat",
                   stock_quantity := 4, rating := 0, is_active := true }]
    response := { order_total_amount := 100, loyalty_points_earned := 1,
                  new_loyalty_points := 14, new_tier := LoyaltyTier.bronze } }

/-- A cart with a negative quantity: the subtotal is negative and the
`max(0, ...)` clamp is skipped (it only runs when `loyalty_points_used > 0`),
so the stored `total_amount` is negative. -/
def od1negqty : OrderCreate :=
  { items := [{ product_id := "p1", quantity := -1 }],
    shipping_address := "addr", loyalty_points_to_use := 0 }

def res1negqty : CreateOrderResult :=
  { order :=
      { user_id := "u1"
        items := [{ product_id := "p1", name := "Widget", price := 100,
                    quantity := -1, total := -100 }]
        total_amount := -100
        discount_amount := 0
        loyalty_points_used := 0
        loyalty_points_earned := -1
        payment_method := "UPI"
        payment_status := "pending"
        order_status := "placed"
        shipping_address := "addr" }
    user := { id := "u1", email := "a@b.c", name := "Alice",
              loyalty_points := 9, loyalty_tier := LoyaltyTier.bronze,
              total_spent := -100 }
    products := [{ id := "p1", name := "Widget", price := 100, category := "cat",
                   stock_quantity := 6, rating := 0, is_active := true }]
    response := { order_total_amount := -100, loyalty_points_earned := -1,
                  new_loyalty_points := 9, new_tier := LoyaltyTier.bronze } }

/-- C1 counterexample: the claim quantifies over every cart and every
requested points value, including negative ones.  (a) With a negative points
request (`loyalty_points_to_use = -3`) the order is created with
`discount_amount = 0` but `loyalty_points_used = -3`, so
`discountAmount = loyaltyPointsUsed` fails.  (b) With a negative-quantity
cart line the subtotal is negative and the clamp is skipped, so
`totalAmount = max(0, Σ lineTotal − discountAmount)` fails. -/
theorem C1_counterexample :
    (create_order ps1 u1ten od1neg = Except.ok res1neg ∧
     res1neg.order.discount_amount ≠ (res1neg.order.loyalty_points_used : ℚ)) ∧
    (create_order ps1 u1ten od1negqty = Except.ok res1negqty ∧
     res1negqty.order.total_amount
       ≠ max 0 (sumLineTotals res1negqty.order.items
                  - res1negqty.order.discount_amount)) := by
  have h1 : create_order ps1 u1ten od1neg = Except.ok res1neg := by
    norm_num [create_order, buildOrderItems, findActiveProduct, settleComputation,
      calculate_loyalty_points, calculate_loyalty_tier, applyStockDecrements,
      updateOneStock, ps1, u1ten, od1neg, res1neg]
  have h2 : create_order ps1 u1ten od1negqty = Except.ok res1negqty := by
    norm_num [create_order, buildOrderItems, findActiveProduct, settleComputation,
      calculate_loyalty_points, calculate_loyalty_tier, applyStockDecrements,
      updateOneStock, ps1, u1ten, od1negqty, res1negqty]
  refine ⟨⟨h1, ?_⟩, ⟨h2, ?_⟩⟩
  · norm_num [res1neg]
  · norm_num [res1negqty, sumLineTotals]

/-- C1 (amended): for a successful settlement with a non-negative requested
points value, a non-negative user point balance, and a non-negative subtotal
(every cart of non-negative prices and quantities), the persisted order
satisfies `totalAmount = max(0, Σ lineTotal − discountAmount)` and
`discountAmount = loyaltyPointsUsed`.  (The code does not clamp a negative
request, and skips the `max(0, ·)` clamp when `loyalty_points_used ≤ 0`.) -/
theorem C1_order_totals {ps : List Product} {u : User} {od : OrderCreate}
    {res : CreateOrderResult} (h : create_order ps u od = Except.ok res)
    (hreq : 0 ≤ od.loyalty_points_to_use) (hbal : 0 ≤ u.loyalty_points)
    (hsub : 0 ≤ sumLineTotals res.order.items) :
    res.order.total_amount
      = max 0 (sumLineTotals res.order.items - res.order.discount_amount) ∧
    res.order.discount_amount = (res.order.loyalty_points_used : ℚ) := by
  obtain ⟨ois, st, hb, rfl⟩ := create_order_ok_inv h
  rw [settleComputation_items] at hsub ⊢
  rw [buildOrderItems_sum hb] at hsub ⊢
  rw [settleComputation_total, settleComputation_discount, settleComputation_used]
  have hm0 : 0 ≤ min od.loyalty_points_to_use u.loyalty_points := le_min hreq hbal
  by_cases hpos : 0 < min od.loyalty_points_to_use u.loyalty_points
  · rw [if_pos hpos, if_pos hpos]
    exact ⟨rfl, rfl⟩
  · have hz : min od.loyalty_points_to_use u.loyalty_points = 0 :=
      le_antisymm (not_lt.mp hpos) hm0
    rw [if_neg hpos, if_neg hpos, hz]
    constructor
    · rw [sub_zero]
      exact (max_eq_right hsub).symm
    · norm_num

/-- Witness for C1 at the concrete catalog `ps1`: user with 50 points
redeems 30 against a subtotal of 200. -/
theorem C1_order_totals_witness :
    create_order ps1 u1 od1 = Except.ok res1 ∧
    (0 : ℤ) ≤ od1.loyalty_points_to_use ∧
    (0 : ℤ) ≤ u1.loyalty_points ∧
    (0 : ℚ) ≤ sumLineTotals res1.order.items ∧
    (res1.order.total_amount
       = max 0 (sumLineTotals res1.order.items - res1.order.discount_amount) ∧
     res1.order.discount_amount = (res1.order.loyalty_points_used : ℚ)) := by
  have h : create_order ps1 u1 od1 = Except.ok res1 := by
    norm_num [create_order, buildOrderItems, findActiveProduct, settleComputation,
      calculate_loyalty_points, calculate_loyalty_tier, applyStockDecrements,
      updateOneStock, ps1, u1, od1, res1]
  exact ⟨h, by norm_num [od1], by norm_num [u1],
         by norm_num [res1, sumLineTotals],
         C1_order_totals h (by norm_num [od1]) (by norm_num [u1])
           (by norm_num [res1, sumLineTotals])⟩

/-- Inputs for the C2 theorems (same shape as C1 but its own records). -/
def ps2 : List Product :=
  [{ id := "q1", name := "Gadget", price := 40, category := "cat",
     stock_quantity := 2, rating := 0, is_active := true }]

def u2 : User :=
  { id := "u2", email := "b@b.c", name := "Bob", loyalty_points := 5,
    loyalty_tier := LoyaltyTier.bronze, total_spent := 0 }

def od2 : OrderCreate :=
  { items := [{ product_id := "q1", quantity := 1 }],
    shipping_address := "addr2", loyalty_points_to_use := 7 }

def res2 : CreateOrderResult :=
  { order :=
      { user_id := "u2"
        items := [{ product_id := "q1", name := "Gadget", price := 40,
                    quantity := 1, total := 40 }]
        total_amount := 35
        discount_amount := 5
        loyalty_points_used := 5
        loyalty_points_earned := 0
        payment_method := "UPI"
        payment_status := "pending"
        order_status := "placed"
        shipping_address := "addr2" }
    user := { id := "u2", email := "b@b.c", name := "Bob",
              loyalty_points := 0, loyalty_tier := LoyaltyTier.bronze,
              total_spent := 35 }
    products := [{ id := "q1", name := "Gadget", price := 40, category := "cat",
                   stock_quantity := 1, rating := 0, is_active := true }]
    response := { order_total_amount := 35, loyalty_points_earned := 0,
                  new_loyalty_points := 0, new_tier := LoyaltyTier.bronze } }

def u2ten : User :=
  { id := "u2", email := "b@b.c", name := "Bob", loyalty_points := 10,
    loyalty_tier := LoyaltyTier.bronze, total_spent := 0 }

def od2neg : OrderCreate :=
  { items := [{ product_id := "q1", quantity := 1 }],
    shipping_address := "addr2", loyalty_points_to_use := -3 }

def res2neg : CreateOrderResult :=
  { order :=
      { user_id := "u2"
        items := [{ product_id := "q1", name := "Gadget", price := 40,
                    quantity := 1, total := 40 }]
        total_amount := 40
        discount_amount := 0
        loyalty_points_used := -3
        loyalty_points_earned := 0
        payment_method := "UPI"
        payment_status := "pending"
        order_status := "placed"
        shipping_address := "addr2" }
    user := { id := "u2", email := "b@b.c", name := "Bob",
              loyalty_points := 13, loyalty_tier := LoyaltyTier.bronze,
              total_spent := 40 }
    products := [{ id := "q1", name := "Gadget", price := 40, category := "cat",
                   stock_quantity := 1, rating := 0, is_active := true }]
    response := { order_total_amount := 40, loyalty_points_earned := 0,
                  new_loyalty_points := 13, new_tier := LoyaltyTier.bronze } }

/-- C2 counterexample: the code computes `min(requestedPoints, userPoints)`
without clamping the request to ≥ 0.  Requesting `-3` points with a balance
of 10 yields `loyalty_points_used = -3`: not the claimed
`min(max(0, requested), userPoints) = 0`, and negative. -/
theorem C2_counterexample :
    create_order ps2 u2ten od2neg = Except.ok res2neg ∧
    res2neg.order.loyalty_points_used
      ≠ min (max 0 od2neg.loyalty_points_to_use) u2ten.loyalty_points ∧
    res2neg.order.loyalty_points_used < 0 := by
  have h : create_order ps2 u2ten od2neg = Except.ok res2neg := by
    norm_num [create_order, buildOrderItems, findActiveProduct, settleComputation,
      calculate_loyalty_points, calculate_loyalty_tier, applyStockDecrements,
      updateOneStock, ps2, u2ten, od2neg, res2neg]
  exact ⟨h, by norm_num [res2neg, od2neg, u2ten], by norm_num [res2neg]⟩

/-- C2 (amended): for every settlement the points redeemed equal
`min(requestedPoints, userPoints)` with no clamping of the request, so they
never exceed the user's balance, and they are non-negative whenever the
request and the balance are non-negative (a negative request is stored
negatively). -/
theorem C2_points_redeemed {ps : List Product} {u : User} {od : OrderCreate}
    {res : CreateOrderResult} (h : create_order ps u od = Except.ok res) :
    res.order.loyalty_points_used
      = min od.loyalty_points_to_use u.loyalty_points ∧
    res.order.loyalty_points_used ≤ u.loyalty_points ∧
    (0 ≤ od.loyalty_points_to_use → 0 ≤ u.loyalty_points →
      0 ≤ res.order.loyalty_points_used) := by
  obtain ⟨ois, st, hb, rfl⟩ := create_order_ok_inv h
  rw [settleComputation_used]
  exact ⟨rfl, min_le_right _ _, fun h1 h2 => le_min h1 h2⟩

/-- Witness for C2: a user with 5 points requesting 7 redeems exactly 5. -/
theorem C2_points_redeemed_witness :
    create_order ps2 u2 od2 = Except.ok res2 ∧
    (res2.order.loyalty_points_used
       = min od2.loyalty_points_to_use u2.loyalty_points ∧
     res2.order.loyalty_points_used ≤ u2.loyalty_points ∧
     (0 ≤ od2.loyalty_points_to_use → 0 ≤ u2.loyalty_points →
       0 ≤ res2.order.loyalty_points_used)) := by
  have h : create_order ps2 u2 od2 = Except.ok res2 := by
    norm_num [create_order, buildOrderItems, findActiveProduct, settleComputation,
      calculate_loyalty_points, calculate_loyalty_tier, applyStockDecrements,
      updateOneStock, ps2, u2, od2, res2]
  exact ⟨h, C2_points_redeemed h⟩

/-! ### C3: validation failures abort with no state change -/

/-- A cart line that must make settlement fail: its product id does not
resolve to an active product, or its quantity exceeds the product's stock. -/
def badItem (products : List Product) (item : CartItem) : Prop :=
  findActiveProduct products item.product_id = none ∨
  ∃ p, findActiveProduct products item.product_id = some p ∧
       p.stock_quantity < item.quantity

/-- The error names an offending product of the cart: `productNotFound`
carries the id of a cart line that resolves to no active product, and
`insufficientStock` carries the name of an active product some cart line
over-orders. -/
def errorNamesOffender (products : List Product) (items : List CartItem) :
    OrderError → Prop
  | OrderError.productNotFound pid =>
      (∃ it ∈ items, it.product_id = pid) ∧ findActiveProduct products pid = none
  | OrderError.insufficientStock n =>
      ∃ it ∈ items, ∃ p, findActiveProduct products it.product_id = some p ∧
        p.name = n ∧ p.stock_quantity < it.quantity

theorem buildOrderItems_error_of_bad {ps : List Product} {items : List CartItem}
    (h : ∃ it ∈ items, badItem ps it) :
    ∃ e, buildOrderItems ps items = Except.error e ∧
         errorNamesOffender ps items e := by
  induction items with
  | nil => obtain ⟨it, hmem, _⟩ := h; simp at hmem
  | cons item rest ih =>
    cases hf : findActiveProduct ps item.product_id with
    | none =>
      refine ⟨OrderError.productNotFound item.product_id,
        buildOrderItems_cons_none hf, ?_⟩
      exact ⟨⟨item, List.mem_cons_self _ _, rfl⟩, hf⟩
    | some p =>
      by_cases hs : p.stock_quantity < item.quantity
      · refine ⟨OrderError.insufficientStock p.name, ?_, ?_⟩
        · rw [buildOrderItems_cons_some hf, if_pos hs]
        · exact ⟨item, List.mem_cons_self _ _, p, hf, rfl, hs⟩
      · -- the head line is fine, so the offending line is in the tail
        have hrest : ∃ it ∈ rest, badItem ps it := by
          obtain ⟨it, hmem, hbad⟩ := h
          rcases List.mem_cons.mp hmem with rfl | hmem'
          · exfalso
            rcases hbad with hnone | ⟨p', hp', hlt⟩
            · rw [hf] at hnone; exact Option.noConfusion hnone
            · rw [hf] at hp'
              injection hp' with hpp
              exact hs (hpp ▸ hlt)
          · exact ⟨it, hmem', hbad⟩
        obtain ⟨e, he, hname⟩ := ih hrest
        refine ⟨e, ?_, ?_⟩
        · rw [buildOrderItems_cons_some hf, if_neg hs, he]
        · cases e with
          | productNotFound pid =>
            obtain ⟨⟨it, hmem, hpid⟩, hnone⟩ := hname
            exact ⟨⟨it, List.mem_cons_of_mem _ hmem, hpid⟩, hnone⟩
          | insufficientStock n =>
            obtain ⟨it, hmem, p', hp', hn, hlt⟩ := hname
            exact ⟨it, List.mem_cons_of_mem _ hmem, p', hp', hn, hlt⟩

/-- C3: a cart containing a line whose product id does not resolve to an
active product, or whose quantity exceeds that product's stock, makes
`create_order` fail with an error naming an offending product
(`ProductNotFound` / `InsufficientStock` respectively).  The failure is an
`Except.error`, which in this embedding carries no updated state: the
handler raises its `HTTPException` inside the validation loop, before the
order insert, the user update and the stock decrements, so no order is
persisted, no stock changes and the user's points/spend/tier are unchanged. -/
theorem C3_validation_aborts {ps : List Product} {u : User} {od : OrderCreate}
    (h : ∃ it ∈ od.items, badItem ps it) :
    ∃ e, create_order ps u od = Except.error e ∧
         errorNamesOffender ps od.items e ∧
         ∀ res : CreateOrderResult, create_order ps u od ≠ Except.ok res := by
  obtain ⟨e, he, hname⟩ := buildOrderItems_error_of_bad h
  refine ⟨e, ?_, hname, ?_⟩
  · unfold create_order
    rw [he]
  · intro res hres
    unfold create_order at hres
    rw [he] at hres
    exact Except.noConfusion hres

/-- Inputs for the C3 witness: one unit in stock, two requested. -/
def ps3 : List Product :=
  [{ id := "r1", name := "Doohickey", price := 10, category := "cat",
     stock_quantity := 1, rating := 0, is_active := true }]

def u3 : User :=
  { id := "u3", email := "c@b.c", name := "Carol", loyalty_points := 0,
    loyalty_tier := LoyaltyTier.bronze, total_spent := 0 }

def od3 : OrderCreate :=
  { items := [{ product_id := "r1", quantity := 2 }],
    shipping_address := "addr3", loyalty_points_to_use := 0 }

/-- Witness for C3: ordering 2 of a product with stock 1 aborts settlement. -/
theorem C3_validation_aborts_witness :
    (∃ it ∈ od3.items, badItem ps3 it) ∧
    (∃ e, create_order ps3 u3 od3 = Except.error e ∧
          errorNamesOffender ps3 od3.items e ∧
          ∀ res : CreateOrderResult, create_order ps3 u3 od3 ≠ Except.ok res) := by
  have hf : findActiveProduct ps3 "r1" = some
      { id := "r1", name := "Doohickey", price := 10, category := "cat",
        stock_quantity := 1, rating := 0, is_active := true } := by
    norm_num [findActiveProduct, ps3]
  have hbad : ∃ it ∈ od3.items, badItem ps3 it := by
    refine ⟨{ product_id := "r1", quantity := 2 }, ?_, Or.inr ⟨_, hf, ?_⟩⟩
    · simp [od3]
    · norm_num
  exact ⟨hbad, C3_validation_aborts hbad⟩

/-! ### C4: persisted user state after a successful settlement -/

/-- C4: after every successful settlement the persisted user satisfies
`totalSpent' = totalSpent + totalAmount`,
`loyaltyPoints' = loyaltyPoints − pointsRedeemed + pointsEarned`, and
`loyaltyTier' = calculate_loyalty_tier totalSpent'`. -/
theorem C4_user_update {ps : List Product} {u : User} {od : OrderCreate}
    {res : CreateOrderResult} (h : create_order ps u od = Except.ok res) :
    res.user.total_spent = u.total_spent + res.order.total_amount ∧
    res.user.loyalty_points
      = u.loyalty_points - res.order.loyalty_points_used
        + res.order.loyalty_points_earned ∧
    res.user.loyalty_tier = calculate_loyalty_tier res.user.total_spent := by
  obtain ⟨ois, st, hb, rfl⟩ := create_order_ok_inv h
  exact settleComputation_user ps u od ois st

/-- Inputs for the C4 witness: the spec's example — a user with 500 points
redeems 200 against a cart subtotal of 1000. -/
def ps4 : List Product :=
  [{ id := "s1", name := "Speaker", price := 1000, category := "cat",
     stock_quantity := 3, rating := 0, is_active := true }]

def u4 : User :=
  { id := "u4", email := "d@b.c", name := "Dana", loyalty_points := 500,
    loyalty_tier := LoyaltyTier.bronze, total_spent := 0 }

def od4 : OrderCreate :=
  { items := [{ product_id := "s1", quantity := 1 }],
    shipping_address := "addr4", loyalty_points_to_use := 200 }

def res4 : CreateOrderResult :=
  { order :=
      { user_id := "u4"
        items := [{ product_id := "s1", name := "Speaker", price := 1000,
                    quantity := 1, total := 1000 }]
        total_amount := 800
        discount_amount := 200
        loyalty_points_used := 200
        loyalty_points_earned := 8
        payment_method := "UPI"
        payment_status := "pending"
        order_status := "placed"
        shipping_address := "addr4" }
    user := { id := "u4", email := "d@b.c", name := "Dana",
              loyalty_points := 308, loyalty_tier := LoyaltyTier.bronze,
              total_spent := 800 }
    products := [{ id := "s1", name := "Speaker", price := 1000, category := "cat",
                   stock_quantity := 2, rating := 0, is_active := true }]
    response := { order_total_amount := 800, loyalty_points_earned := 8,
                  new_loyalty_points := 308, new_tier := LoyaltyTier.bronze } }

/-- Witness for C4, on the spec's own example: total 800, points earned 8,
final balance 500 − 200 + 8 = 308. -/
theorem C4_user_update_witness :
    create_order ps4 u4 od4 = Except.ok res4 ∧
    (res4.user.total_spent = u4.total_spent + res4.order.total_amount ∧
     res4.user.loyalty_points
       = u4.loyalty_points - res4.order.loyalty_points_used
         + res4.order.loyalty_points_earned ∧
     res4.user.loyalty_tier = calculate_loyalty_tier res4.user.total_spent) ∧
    res4.order.total_amount = 800 ∧
    res4.order.loyalty_points_earned = 8 ∧
    res4.user.loyalty_points = 308 := by
  have h : create_order ps4 u4 od4 = Except.ok res4 := by
    norm_num [create_order, buildOrderItems, findActiveProduct, settleComputation,
      calculate_loyalty_points, calculate_loyalty_tier, applyStockDecrements,
      updateOneStock, ps4, u4, od4, res4]
  exact ⟨h, C4_user_update h, by norm_num [res4], by norm_num [res4],
         by norm_num [res4]⟩

/-! ### C6: loyalty points earned -/

/-- C6: for every settlement the points earned equal
`⌊totalAmount / 100⌋` of the post-discount order total, both in the
persisted order record and in the response; and the helper
`calculate_loyalty_points` is exactly that floor for every amount. -/
theorem C6_points_earned {ps : List Product} {u : User} {od : OrderCreate}
    {res : CreateOrderResult} (h : create_order ps u od = Except.ok res) :
    res.order.loyalty_points_earned = ⌊res.order.total_amount / 100⌋ ∧
    res.response.loyalty_points_earned = ⌊res.response.order_total_amount / 100⌋ ∧
    ∀ amount : ℚ, calculate_loyalty_points amount = ⌊amount / 100⌋ := by
  obtain ⟨ois, st, hb, rfl⟩ := create_order_ok_inv h
  refine ⟨?_, ?_, fun amount => rfl⟩
  · rw [settleComputation_earned]
    rfl
  · rw [(settleComputation_response ps u od ois st).1,
        (settleComputation_response ps u od ois st).2.1,
        settleComputation_earned]
    rfl

/-- Inputs for the C6 witness: the discount clamps the total to exactly 0,
exercising the "including 0" part of the claim (points earned 0). -/
def ps6 : List Product :=
  [{ id := "t1", name := "Cable", price := 100, category := "cat",
     stock_quantity := 9, rating := 0, is_active := true }]

def u6 : User :=
  { id := "u6", email := "e@b.c", name := "Eve", loyalty_points := 500,
    loyalty_tier := LoyaltyTier.bronze, total_spent := 0 }

def od6 : OrderCreate :=
  { items := [{ product_id := "t1", quantity := 1 }],
    shipping_address := "addr6", loyalty_points_to_use := 500 }

def res6 : CreateOrderResult :=
  { order :=
      { user_id := "u6"
        items := [{ product_id := "t1", name := "Cable", price := 100,
                    quantity := 1, total := 100 }]
        total_amount := 0
        discount_amount := 500
        loyalty_points_used := 500
        loyalty_points_earned := 0
        payment_method := "UPI"
        payment_status := "pending"
        order_status := "placed"
        shipping_address := "addr6" }
    user := { id := "u6", email := "e@b.c", name := "Eve",
              loyalty_points := 0, loyalty_tier := LoyaltyTier.bronze,
              total_spent := 0 }
    products := [{ id := "t1", name := "Cable", price := 100, category := "cat",
                   stock_quantity := 8, rating := 0, is_active := true }]
    response := { order_total_amount := 0, loyalty_points_earned := 0,
                  new_loyalty_points := 0, new_tier := LoyaltyTier.bronze } }

/-- Witness for C6 at a settlement whose post-discount total is 0. -/
theorem C6_points_earned_witness :
    create_order ps6 u6 od6 = Except.ok res6 ∧
    (res6.order.loyalty_points_earned = ⌊res6.order.total_amount / 100⌋ ∧
     res6.response.loyalty_points_earned
       = ⌊res6.response.order_total_amount / 100⌋ ∧
     ∀ amount : ℚ, calculate_loyalty_points amount = ⌊amount / 100⌋) ∧
    res6.order.total_amount = 0 := by
  have h : create_order ps6 u6 od6 = Except.ok res6 := by
    norm_num [create_order, buildOrderItems, findActiveProduct, settleComputation,
      calculate_loyalty_points, calculate_loyalty_tier, applyStockDecrements,
      updateOneStock, ps6, u6, od6, res6]
  exact ⟨h, C6_points_earned h, by norm_num [res6]⟩

/-! ### C7: recommendations for an empty order history -/

/-- C7: for a user with no order history, recommendations contain only
active products, are ordered by rating descending, and have length at most
`limit`; the handler's `limit` parameter defaults to 6. -/
theorem C7_recommendations (ps : List Product) (limit : Nat) :
    (∀ p ∈ get_recommendations_empty_history ps limit, p.is_active = true) ∧
    List.Pairwise (fun a b => b.rating ≤ a.rating)
      (get_recommendations_empty_history ps limit) ∧
    (get_recommendations_empty_history ps limit).length ≤ limit ∧
    get_recommendations_empty_history ps = get_recommendations_empty_history ps 6 := by
  refine ⟨?_, ?_, ?_, rfl⟩
  · intro p hp
    unfold get_recommendations_empty_history at hp
    have h1 := List.mem_of_mem_take hp
    rw [List.mem_mergeSort] at h1
    exact (List.mem_filter.mp h1).2
  · unfold get_recommendations_empty_history
    have hs : ((ps.filter (fun p => p.is_active)).mergeSort
        (fun a b => decide (b.rating ≤ a.rating))).Pairwise
        (fun a b => decide (b.rating ≤ a.rating) = true) := by
      apply List.sorted_mergeSort
      · intro a b c hab hbc
        exact decide_eq_true
          (le_trans (of_decide_eq_true hbc) (of_decide_eq_true hab))
      · intro a b
        rcases le_total b.rating a.rating with h | h <;> simp [h]
    exact List.Pairwise.sublist (List.take_sublist _ _)
      (hs.imp (fun h => of_decide_eq_true h))
  · unfold get_recommendations_empty_history
    simp [List.length_take]

/-! ### C8: two settlements racing on the last unit of stock -/

def ps8 : List Product :=
  [{ id := "w1", name := "Widget", price := 10, category := "cat",
     stock_quantity := 1, rating := 0, is_active := true }]

def od8 : OrderCreate :=
  { items := [{ product_id := "w1", quantity := 1 }],
    shipping_address := "addr8", loyalty_points_to_use := 0 }

/-- C8: the code has no conditional decrement and no settlement-scoped lock,
so in the interleaving where both handlers perform their validation reads
before either performs its stock writes, BOTH settlements of quantity 1
against stock 1 pass validation (neither fails with `InsufficientStock` or a
conflict) and the two unconditional `$inc` updates drive the stock to −1 —
contradicting the claimed "exactly one succeeds, stock never negative". -/
theorem C8_concurrent_oversell :
    ((interleavedSettlements ps8 od8 od8).1).isOk = true ∧
    ((interleavedSettlements ps8 od8 od8).2.1).isOk = true ∧
    (interleavedSettlements ps8 od8 od8).2.2
      = [{ id := "w1", name := "Widget", price := 10, category := "cat",
           stock_quantity := -1, rating := 0, is_active := true }] := by
  refine ⟨?_, ?_, ?_⟩ <;>
    norm_num [interleavedSettlements, buildOrderItems, findActiveProduct,
      applyStockDecrements, updateOneStock, Except.isOk, Except.toBool, ps8, od8]

/-! ### C9: registration welcome bonus -/

/-- C9: every successful registration of a new email creates the user with
`loyalty_points = 100` (the welcome bonus) and `loyalty_tier = bronze`, and
the response's `user` object reports that balance and tier. -/
theorem C9_registration {users : List User} {ud : UserCreate}
    {fresh_id : String} {res : RegisterResult}
    (h : register_user users ud fresh_id = Except.ok res) :
    res.user.loyalty_points = 100 ∧
    res.user.loyalty_tier = LoyaltyTier.bronze ∧
    res.response_loyalty_points = 100 ∧
    res.response_loyalty_tier = LoyaltyTier.bronze := by
  unfold register_user at h
  split at h
  · exact absurd h (by simp)
  · simp only [Except.ok.injEq] at h
    subst h
    exact ⟨rfl, rfl, rfl, rfl⟩

def ud9 : UserCreate := { email := "f@b.c", name := "Finn", password := "pw" }

def res9 : RegisterResult :=
  { user := { id := "id9", email := "f@b.c", name := "Finn",
              loyalty_points := 100, loyalty_tier := LoyaltyTier.bronze,
              total_spent := 0 }
    response_loyalty_points := 100
    response_loyalty_tier := LoyaltyTier.bronze }

/-- Witness for C9: registering a fresh email against an empty user store. -/
theorem C9_registration_witness :
    register_user [] ud9 "id9" = Except.ok res9 ∧
    (res9.user.loyalty_points = 100 ∧
     res9.user.loyalty_tier = LoyaltyTier.bronze ∧
     res9.response_loyalty_points = 100 ∧
     res9.response_loyalty_tier = LoyaltyTier.bronze) := by
  have h : register_user [] ud9 "id9" = Except.ok res9 := rfl
  exact ⟨h, C9_registration h⟩

/-! ### C10: zero / negative cart quantities -/

/-- `update_one` characterised exactly: when some record carries the target
id, the collection splits around the FIRST such record, and the update
replaces precisely that record's stock by `stock - qty`, leaving every other
record (before and after it) unchanged. -/
theorem updateOneStock_first_match (pid : String) (qty : ℤ) :
    ∀ ps : List Product, ∀ q ∈ ps, q.id = pid →
      ∃ pre q0 post,
        ps = pre ++ q0 :: post ∧
        (∀ r ∈ pre, r.id ≠ pid) ∧
        q0.id = pid ∧
        updateOneStock ps pid qty
          = pre ++ { q0 with stock_quantity := q0.stock_quantity - qty } :: post
  | [], q, hq, _ => absurd hq (List.not_mem_nil q)
  | p :: ps, q, hq, hqid => by
    unfold updateOneStock
    by_cases hid : p.id == pid
    · rw [if_pos hid]
      exact ⟨[], p, ps, by simp, by simp, by simpa using hid, by simp⟩
    · rw [if_neg hid]
      have hpid : p.id ≠ pid := by simpa using hid
      have hq' : q ∈ ps := by
        rcases List.mem_cons.mp hq with rfl | h
        · exact absurd hqid hpid
        · exact h
      obtain ⟨pre, q0, post, hsplit, hpre, hq0, hupd⟩ :=
        updateOneStock_first_match pid qty ps q hq' hqid
      refine ⟨p :: pre, q0, post, by simp [hsplit], ?_, hq0, by simp [hupd]⟩
      intro r hr
      rcases List.mem_cons.mp hr with rfl | hr'
      · exact hpid
      · exact hpre r hr'

/-- C10: a cart line with zero or negative quantity is never rejected:
whenever its product resolves and has non-negative stock, the
insufficient-stock branch is unreachable, the line contributes
`lineTotal = price × quantity` (≤ 0 for a non-negative price) to the
subtotal, errors can only come from the remaining lines, and the stock
write for that line rewrites the collection exactly: it splits around the
FIRST record with that id and ADDS the absolute quantity to that record's
stock instead of decrementing it (`$inc` by `-quantity ≥ 0`), leaving every
other record unchanged. -/
theorem C10_nonpositive_quantity {ps : List Product} {rest : List CartItem}
    {item : CartItem} {p : Product}
    (hq : item.quantity ≤ 0)
    (hp : findActiveProduct ps item.product_id = some p)
    (hs : 0 ≤ p.stock_quantity) :
    ¬ p.stock_quantity < item.quantity ∧
    (∀ e, buildOrderItems ps rest = Except.error e →
        buildOrderItems ps (item :: rest) = Except.error e) ∧
    (∀ ois t, buildOrderItems ps rest = Except.ok (ois, t) →
        buildOrderItems ps (item :: rest)
          = Except.ok
              (⟨item.product_id, p.name, p.price, item.quantity,
                p.price * (item.quantity : ℚ)⟩ :: ois,
               p.price * (item.quantity : ℚ) + t)) ∧
    (0 ≤ p.price → p.price * (item.quantity : ℚ) ≤ 0) ∧
    applyStockDecrements ps [item]
      = updateOneStock ps item.product_id item.quantity ∧
    (∃ pre q0 post,
      ps = pre ++ q0 :: post ∧
      (∀ r ∈ pre, r.id ≠ item.product_id) ∧
      q0.id = item.product_id ∧
      updateOneStock ps item.product_id item.quantity
        = pre ++ { q0 with
                     stock_quantity := q0.stock_quantity + |item.quantity| }
            :: post) := by
  have hnot : ¬ p.stock_quantity < item.quantity :=
    not_lt.mpr (le_trans hq hs)
  refine ⟨hnot, ?_, ?_, ?_, rfl, ?_⟩
  · intro e he
    rw [buildOrderItems_cons_some hp, if_neg hnot, he]
  · intro ois t hok
    rw [buildOrderItems_cons_some hp, if_neg hnot, hok]
  · intro hpr
    have hcast : (item.quantity : ℚ) ≤ 0 := by exact_mod_cast hq
    exact mul_nonpos_iff.mpr (Or.inl ⟨hpr, hcast⟩)
  · have hp' : ps.find? (fun r => r.id == item.product_id && r.is_active)
        = some p := hp
    have hpm : p ∈ ps := List.mem_of_find?_eq_some hp'
    have hpid : p.id = item.product_id := by
      have hpred := List.find?_some hp'
      simp only [Bool.and_eq_true, beq_iff_eq] at hpred
      exact hpred.1
    obtain ⟨pre, q0, post, hsplit, hpre, hq0, hupd⟩ :=
      updateOneStock_first_match item.product_id item.quantity ps p hpm hpid
    have habs : q0.stock_quantity - item.quantity
        = q0.stock_quantity + |item.quantity| := by
      rw [abs_of_nonpos hq]; ring
    refine ⟨pre, q0, post, hsplit, hpre, hq0, ?_⟩
    rw [hupd, habs]

/-- Inputs for the C10 witness: a line ordering quantity −2 of an active
product with stock 3. -/
def ps10 : List Product :=
  [{ id := "v1", name := "Gizmo", price := 10, category := "cat",
     stock_quantity := 3, rating := 0, is_active := true }]

def item10 : CartItem := { product_id := "v1", quantity := -2 }

def prod10 : Product :=
  { id := "v1", name := "Gizmo", price := 10, category := "cat",
    stock_quantity := 3, rating := 0, is_active := true }

/-- Witness for C10 at quantity −2: the line passes validation and the stock
update takes the single record from stock 3 to stock 5 — an increase by
`|−2| = 2` instead of a decrement. -/
theorem C10_nonpositive_quantity_witness :
    item10.quantity ≤ 0 ∧
    findActiveProduct ps10 item10.product_id = some prod10 ∧
    0 ≤ prod10.stock_quantity ∧
    updateOneStock ps10 item10.product_id item10.quantity
      = [{ id := "v1", name := "Gizmo", price := 10, category := "cat",
           stock_quantity := 5, rating := 0, is_active := true }] ∧
    (¬ prod10.stock_quantity < item10.quantity ∧
     (∀ e, buildOrderItems ps10 [] = Except.error e →
         buildOrderItems ps10 [item10] = Except.error e) ∧
     (∀ ois t, buildOrderItems ps10 [] = Except.ok (ois, t) →
         buildOrderItems ps10 [item10]
           = Except.ok
               (⟨item10.product_id, prod10.name, prod10.price, item10.quantity,
                 prod10.price * (item10.quantity : ℚ)⟩ :: ois,
                prod10.price * (item10.quantity : ℚ) + t)) ∧
     (0 ≤ prod10.price → prod10.price * (item10.quantity : ℚ) ≤ 0) ∧
     applyStockDecrements ps10 [item10]
       = updateOneStock ps10 item10.product_id item10.quantity ∧
     (∃ pre q0 post,
       ps10 = pre ++ q0 :: post ∧
       (∀ r ∈ pre, r.id ≠ item10.product_id) ∧
       q0.id = item10.product_id ∧
       updateOneStock ps10 item10.product_id item10.quantity
         = pre ++ { q0 with
                      stock_quantity := q0.stock_quantity + |item10.quantity| }
             :: post)) := by
  have hq : item10.quantity ≤ 0 := by norm_num [item10]
  have hp : findActiveProduct ps10 item10.product_id = some prod10 := by
    norm_num [findActiveProduct, ps10, item10, prod10]
  have hs : (0 : ℤ) ≤ prod10.stock_quantity := by norm_num [prod10]
  have hconc : updateOneStock ps10 item10.product_id item10.quantity
      = [{ id := "v1", name := "Gizmo", price := 10, category := "cat",
           stock_quantity := 5, rating := 0, is_active := true }] := by
    norm_num [updateOneStock, ps10, item10]
  exact ⟨hq, hp, hs, hconc, C10_nonpositive_quantity hq hp hs⟩
